import Mathlib

/-!
Verification development for the repository-provisioning workflow of
aifoundry-apps (backend/app/services/agent_service.py, backend/app/github_service.py,
backend/app/progress.py).

The Python code is shallowly embedded: every external HTTP interaction is an
oracle value supplied by an environment record, and the provisioning flow of
`AgentService.assign_to_swe_agent` (the `devin` branch, from the source
resolution at agent_service.py:61 onward) is a pure function from the request
inputs and that environment to an outcome, the list of issued external calls,
and the list of published progress events.

Two consequences of the source text are modelled explicitly, because they
decide several claims:

* In agent_service.py the replication block starting at line 229
  (`fast_result = gh_service.fast_import_from_tar(...)`) is indented at the
  level of the `devin` branch, OUTSIDE both the `if not fork_ok:` branch
  (lines 150-228) and the `async with httpx.AsyncClient() as client:` block
  (lines 93-228).  Hence it executes even when the fork succeeded, in which
  case the local `gh_service` (bound only at line 225 inside
  `if not fork_ok:`) is unbound and Python raises UnboundLocalError.
* For the same reason, the legacy-importer call at line 261
  (`await client.put(...)`) runs after the `async with` block of line 93 has
  exited, so it uses a closed httpx client; httpx raises
  RuntimeError (the client has been closed) before any request is sent.
-/

/-- Python `str.__contains__` helper: does `pat` occur at the head of `s`? -/
def beginsWith : List Char → List Char → Bool
  | [], _ => true
  | _ :: _, [] => false
  | p :: ps, s :: ss => p == s && beginsWith ps ss

/-- Python `pat in s` on lists of characters. -/
def subListIn (pat : List Char) : List Char → Bool
  | [] => pat.isEmpty
  | s :: ss => beginsWith pat (s :: ss) || subListIn pat ss

/-- Python substring test `pat in s`. -/
def strContains (s pat : String) : Bool := subListIn pat.toList s.toList

/-- Python `str.lower` on an ASCII character. -/
def pyLowerChar (c : Char) : Char :=
  if 65 ≤ c.toNat ∧ c.toNat ≤ 90 then Char.ofNat (c.toNat + 32) else c

/-- Python `str.lower` (the strings the code lowercases are ASCII). -/
def pyLower (s : String) : String := String.mk (s.toList.map pyLowerChar)

/-- Python whitespace, as stripped by `str.strip()`. -/
def isPySpace (c : Char) : Bool :=
  c.toNat == 32 || c.toNat == 9 || c.toNat == 10 ||
  c.toNat == 13 || c.toNat == 11 || c.toNat == 12

/-- Python `str.strip()`. -/
def pyStrip (s : String) : String :=
  String.mk (((s.toList.dropWhile isPySpace).reverse.dropWhile isPySpace).reverse)

/-- Python `x or y` for strings: the empty string is falsy. -/
def pyOrS (x y : String) : String := if x == "" then y else x

/-- An HTTP response as observed by the code: status code and body text. -/
structure HttpResp where
  status : Nat
  text : String
deriving DecidableEq

/-- The `Bad credentials` test the code applies before re-issuing a request
with a `Bearer` header (e.g. agent_service.py:113, 162, 195). -/
def badCreds (r : HttpResp) : Bool :=
  r.status == 401 && strContains r.text "Bad credentials"

/-- A call site that is retried once with a `Bearer` header when the first
response is 401 with `Bad credentials` in the body: the environment supplies
both responses. -/
structure Call2 where
  first : HttpResp
  onRetry : HttpResp
deriving DecidableEq

/-- The response the code ends up acting on at a retried call site. -/
def effResp (c : Call2) : HttpResp :=
  if badCreds c.first then c.onRetry else c.first

/-- Result dictionary of the GitHubService replication helpers:
`\x7b"success": bool, "error": optional str\x7d`. -/
structure RepResult where
  success : Bool
  error : Option String
deriving DecidableEq

/-- Environment of the emptiness probe `_repo_is_empty`
(agent_service.py:322-356). -/
structure ProbeEnv where
  /-- contents listing GET (with Bad-credentials retry). -/
  cont : Call2
  /-- when the listing returns 200: `some b` with `b` = the JSON body is a
  list of length 0; `none` = `cont.json()` raised (→ `return False`). -/
  contEmptyList : Option Bool
  /-- the repository-metadata GET used as fallback (single call). -/
  meta : HttpResp
  /-- when the metadata call returns 200: `some b` with `b` =
  `meta.json().get("size", 0) == 0`; `none` = `meta.json()` raised, which the
  outer `try` turns into `False`. -/
  metaSizeZero : Option Bool
deriving DecidableEq

/-- `_repo_is_empty` (agent_service.py:322-356): 404 on the contents listing
means empty; a 200 listing is empty iff the JSON body is an empty list; any
other listing status falls back to `size == 0` in the repository metadata;
every exception path yields `False`. -/
def repo_is_empty (pe : ProbeEnv) : Bool :=
  let cont := effResp pe.cont
  if cont.status == 404 then true
  else if cont.status == 200 then
    match pe.contEmptyList with
    | none => false
    | some b => b
  else if pe.meta.status == 200 then
    match pe.metaSizeZero with
    | none => false
    | some b => b
  else false

/-- External calls issued by the provisioning flow, in order. -/
inductive Act
  | getUser
  | forkReq
  | renameReq
  | getRepoReq
  | createRepoReq
  | fastImportReq
  /-- the legacy-importer PUT of agent_service.py:261; never recorded,
  because the client it would use is already closed (see module comment). -/
  | importPutReq
  | copyReq
  | probeReq
  | deleteReq (owner repo : String)
  | writeAgents (owner repo : String)
  | devinReq
deriving DecidableEq

/-- A progress event published on the job's queue (name, plus the `status`
field of the payload for `done` events). -/
inductive PEvent
  | plain (name : String)
  | doneEv (status : String)
deriving DecidableEq

/-- Terminal outcome of the provisioning flow. -/
inductive Outcome
  /-- the `status: success` result dictionary; carries `repository_url`. -/
  | ok (repoUrl : String)
  /-- the `manual_fork_required` partial-success dictionary:
  `fork_url`, `suggested_owner`, `suggested_repo`, `message`. -/
  | manualFork (forkUrl owner repo msg : String)
  /-- a raised `HTTPException(status_code, detail)`. -/
  | httpErr (status : Nat) (detail : String)
  /-- an uncaught Python runtime error. -/
  | pyErr (msg : String)
deriving DecidableEq

/-- Result of running the flow: outcome, issued calls, published events. -/
structure RunOut where
  outcome : Outcome
  acts : List Act
  evs : List PEvent
deriving DecidableEq

/-- Oracle for every external interaction of one job. -/
structure Env where
  /-- status of the `GET /user` identity lookup (agent_service.py:64-71). -/
  userStatus : Nat
  /-- login returned by the identity lookup. -/
  userLogin : String
  /-- the fork POST (agent_service.py:104-122). -/
  fork : Call2
  /-- the rename PATCH (agent_service.py:130-138). -/
  rename : HttpResp
  /-- the existence GET on the target repository (agent_service.py:154-170). -/
  getRepo : Call2
  /-- the repository-creation POST (agent_service.py:179-211). -/
  createRepo : Call2
  /-- result of `GitHubService.fast_import_from_tar` (github_service.py:293). -/
  fastImport : RepResult
  /-- result of `GitHubService.copy_into_existing_repo` (github_service.py:227);
  unreachable in this flow, kept for fidelity. -/
  copyRes : RepResult
  /-- environment of the post-replication emptiness probe. -/
  probe : ProbeEnv
  /-- the repository DELETE used for cleanup (agent_service.py:363-373). -/
  delete : Call2
  /-- whether creating `agents.md` succeeded (failure is only logged,
  agent_service.py:408-409). -/
  agentsOk : Bool
  /-- the Devin session-creation POST (agent_service.py:457-462). -/
  devin : HttpResp
deriving DecidableEq

/-- Caller-side inputs of one job. -/
structure JobInput where
  srcOwner : String
  srcRepo : String
  /-- `request.customization.owner` (schema default `""`). -/
  customOwner : String
  /-- `request.customization.repo` (schema default `""`). -/
  customRepo : String
  /-- `target_repo` derived from template title and company name
  (agent_service.py:54-58). -/
  derivedRepo : String
  /-- `request.prefer_import`. -/
  preferImport : Bool
  /-- `gh_token.startswith("ghu_") and not request.github_pat`. -/
  ghuNoPat : Bool
  /-- whether a `progress_job` id was supplied. -/
  progressJob : Bool
  /-- whether `broker.cancel(progress_job)` has been called (steady flag:
  `broker.is_cancelled` only ever moves from false to true). -/
  cancelled : Bool
deriving DecidableEq

/-- Publish an event when a progress job id was supplied. -/
def pubIf (b : Bool) (e : PEvent) (evs : List PEvent) : List PEvent :=
  if b then evs ++ [e] else evs

/-- Acts of a call site with its possible Bad-credentials retry. -/
def call2Acts (a : Act) (c : Call2) : List Act :=
  if badCreds c.first then [a, a] else [a]

/-- The manual fork URL built by `_manual_fork_response`
(agent_service.py:244) and by the empty-repository fallback
(agent_service.py:378). -/
def manualForkUrl (owner repo : String) : String :=
  "https://github.com/" ++ owner ++ "/" ++ repo ++ "/fork"

/-- The rate-limit/forbidden text test applied to the lowercased
`fast_result` error at agent_service.py:256. -/
def rateLimitText (e : String) : Bool :=
  strContains e "403" || strContains e "rate limit" || strContains e "forbidden"

/-- Advice appended to the creation-failure detail for GitHub App user tokens
(agent_service.py:215). -/
def ghuPatAdvice : String :=
  "; your GitHub token appears to be a GitHub App user token (ghu_). Personal repo creation via API is often blocked for app tokens. Provide a classic Personal Access Token (github_pat_ or ghp_) in the UI and try again, or create the empty repo manually and specify owner/repo."

/-- `target_owner` (agent_service.py:73). -/
def targetOwnerOf (inp : JobInput) (userLogin : String) : String :=
  pyOrS (pyStrip inp.customOwner) userLogin

/-- `desired_repo_name` (agent_service.py:74). -/
def desiredRepoOf (inp : JobInput) : String :=
  pyOrS (pyStrip inp.customRepo) inp.derivedRepo

/-- Continuation after the replication block: the 3-second settle sleep, the
emptiness probe, cleanup and the metadata/dispatch phase
(agent_service.py:319-530).  `created` is the `created_repo` flag set at
line 218; `finalRepo` is `final_repo_name` as of line 358. -/
def postReplication (inp : JobInput) (env : Env) (created : Bool)
    (finalRepo : String) (acts : List Act) (evs : List PEvent) : RunOut :=
  -- `(request.customization.owner.strip() or user_login)` as written at
  -- lines 358, 364, 385, 395, 403, 411 (equal to target_owner of line 73
  -- because the schema defaults owner to "").
  let probeOwner := pyOrS (pyStrip inp.customOwner) env.userLogin
  let acts := acts ++ [Act.probeReq]
  if repo_is_empty env.probe then
    -- cleanup only when this run created the repository (line 360); the
    -- DELETE is inside a try whose failures are only logged.
    let acts :=
      if created then
        acts ++ call2Acts (Act.deleteReq probeOwner finalRepo) env.delete
      else acts
    let evs := pubIf inp.progressJob (PEvent.doneEv "partial_success") evs
    ⟨Outcome.manualFork (manualForkUrl inp.srcOwner inp.srcRepo) probeOwner
       (desiredRepoOf inp)
       "Detected empty repository after creation/import. The empty repo has been removed. Please fork the template manually, then click Continue to resume.",
     acts, evs⟩
  else
    let evs := pubIf inp.progressJob (PEvent.plain "write-agents") evs
    -- create_file("agents.md", ...): failure only logged (lines 402-409),
    -- so env.agentsOk does not influence control flow.
    let acts := acts ++ [Act.writeAgents probeOwner finalRepo]
    let repoUrl := "https://github.com/" ++ probeOwner ++ "/" ++ finalRepo
    let evs := pubIf inp.progressJob (PEvent.plain "agent-start") evs
    let acts := acts ++ [Act.devinReq]
    if env.devin.status == 200 then
      -- success: a second GET /user for assignment storage (lines 487-504),
      -- then the done event with the success result.
      let acts := acts ++ [Act.getUser]
      let evs := pubIf inp.progressJob (PEvent.doneEv "success") evs
      ⟨Outcome.ok repoUrl, acts, evs⟩
    else
      -- the HTTPExceptions raised at lines 512, 514, 524 are raised inside
      -- the try of line 454, whose generic `except Exception` handler
      -- (line 528) re-raises them as HTTPException(500,
      -- "Failed to communicate with Devin API: ...").
      let inner :=
        if env.devin.status == 401 then
          "401: Invalid Devin API key. Please check your credentials."
        else if env.devin.status == 429 then
          "429: Devin API rate limit exceeded. Please try again later."
        else
          "500: Devin API error: " ++ toString env.devin.status
      ⟨Outcome.httpErr 500 ("Failed to communicate with Devin API: " ++ inner),
       acts, evs⟩

/-- The replication block of agent_service.py:229-316.  It is dedented to the
`devin`-branch level, so it runs on every path; `ghBound` records whether the
`if not fork_ok:` branch ran and bound `gh_service` (line 225).  On the
fork-success path `gh_service` is unbound and line 229 raises
UnboundLocalError.  On the bound path, a failed tarball import that is not
classified as rate-limit reaches the legacy-importer PUT of line 261, which
uses the httpx client of line 93 after its `async with` block has exited, so
httpx raises RuntimeError before any request is sent; the legacy-import and
content-copy branches of lines 286-316 are unreachable. -/
def replicationBlock (inp : JobInput) (env : Env) (ghBound created : Bool)
    (acts : List Act) (evs : List PEvent) : RunOut :=
  if !ghBound then
    ⟨Outcome.pyErr "UnboundLocalError: gh_service", acts, evs⟩
  else
    let acts := acts ++ [Act.fastImportReq]
    -- fast_import_from_tar checks `should_cancel()` (github_service.py:313)
    -- right after the default-branch lookup; with the job cancelled (and a
    -- progress job supplied, agent_service.py:228) it returns
    -- `success: False, error: "cancelled"`.
    let fast :=
      if inp.progressJob && inp.cancelled then RepResult.mk false (some "cancelled")
      else env.fastImport
    if fast.success then
      let evs := pubIf inp.progressJob (PEvent.plain "import-ok") evs
      postReplication inp env created (desiredRepoOf inp) acts evs
    else
      let frErr := pyLower ((fast.error).getD "")
      if rateLimitText frErr then
        let evs := pubIf inp.progressJob (PEvent.doneEv "partial_success") evs
        ⟨Outcome.manualFork (manualForkUrl inp.srcOwner inp.srcRepo)
           (targetOwnerOf inp env.userLogin) (desiredRepoOf inp)
           "GitHub API rate limit or access restriction encountered while importing. Please fork the template manually, then click Continue to resume.",
         acts, evs⟩
      else
        -- line 261: `await client.put(...)` on the closed client.
        ⟨Outcome.pyErr "RuntimeError: client closed", acts, evs⟩

/-- The `if not fork_ok:` branch (agent_service.py:150-228): existence check,
creation of an empty repository, then fall-through into the replication
block with `gh_service` bound. -/
def createPhase (inp : JobInput) (env : Env)
    (acts : List Act) (evs : List PEvent) : RunOut :=
  let evs := pubIf inp.progressJob (PEvent.plain "create-start") evs
  let acts := acts ++ call2Acts Act.getRepoReq env.getRepo
  -- line 171: `repo_exists = get_repo_resp.status_code == 200`.
  if (effResp env.getRepo).status == 200 then
    let evs := pubIf inp.progressJob (PEvent.plain "populate-start") evs
    replicationBlock inp env true false acts evs
  else
    let acts := acts ++ call2Acts Act.createRepoReq env.createRepo
    let cr := effResp env.createRepo
    -- line 212: `if create_resp.status_code not in (201,):` raise.
    if cr.status == 201 then
      let evs := pubIf inp.progressJob (PEvent.plain "populate-start") evs
      replicationBlock inp env true true acts evs
    else
      let detail := "Failed to create repository: " ++ cr.text ++
        (if inp.ghuNoPat && (cr.status == 401 || cr.status == 403) then
           ghuPatAdvice
         else "")
      ⟨Outcome.httpErr cr.status detail, acts, evs⟩

/-- The provisioning flow of `AgentService.assign_to_swe_agent` for
`agent_id == "devin"`, from the source resolution at agent_service.py:61 to
the terminal outcome.  Earlier steps (template lookup, GitHub token
resolution) are assumed to have succeeded, as every claim concerns the flow
from the fork attempt on. -/
def assign_to_swe_agent (inp : JobInput) (env : Env) : RunOut :=
  let evs := pubIf inp.progressJob (PEvent.plain "resolve-source") []
  let acts := [Act.getUser]
  if env.userStatus == 200 then
    if inp.preferImport then
      -- line 100: `fork_resp = httpx.Response(status_code=418)`, no fork
      -- request and no fork-start event; 418 is not in (201, 202).
      createPhase inp env acts evs
    else
      let evs := pubIf inp.progressJob (PEvent.plain "fork-start") evs
      let acts := acts ++ call2Acts Act.forkReq env.fork
      let fr := effResp env.fork
      if fr.status == 201 || fr.status == 202 then
        let evs := pubIf inp.progressJob (PEvent.plain "fork-ok") evs
        -- line 127 leaves final_repo_name = desired_repo_name; lines 129-142
        -- attempt a rename when a different name was requested.
        let acts :=
          if desiredRepoOf inp != "" && desiredRepoOf inp != inp.srcRepo then
            acts ++ [Act.renameReq]
          else acts
        -- fall-through into the dedented replication block with gh_service
        -- unbound (fork_ok is True, so lines 150-228 were skipped).
        replicationBlock inp env false false acts evs
      else
        -- any non-(201, 202) fork response: fork_ok stays False (line 144);
        -- the 401/403 app-token case at lines 146-147 only logs a warning.
        createPhase inp env acts evs
  else
    ⟨Outcome.httpErr env.userStatus "Failed to identify GitHub user", acts, evs⟩

/-- A frame emitted by `ProgressBroker.stream` (progress.py:21-38): either the
terminal cancelled `done` frame of line 26 or a data frame for a queued
event (keepalive comment frames are time-driven and carry no data). -/
inductive Frame
  | doneCancelled
  | msg (event : String)
deriving DecidableEq

/-- The cancelled-job set held by the broker, with
`ProgressBroker.cancel` (progress.py:40-41) and
`ProgressBroker.is_cancelled` (progress.py:43-44). -/
def cancelJob (cancelledSet : List String) (jobId : String) : List String :=
  jobId :: cancelledSet

/-- `ProgressBroker.is_cancelled`. -/
def is_cancelledJob (cancelledSet : List String) (jobId : String) : Bool :=
  cancelledSet.contains jobId

/-- The frame sequence produced by `ProgressBroker.stream` (progress.py:24-38)
over a queue of pending event names, for a fixed value of the job's
cancellation flag: each loop iteration first checks the flag (line 25) and,
if set, yields the terminal cancelled `done` frame and breaks; otherwise it
delivers the next queued event, stopping after a `done` event (line 33). -/
def streamFrames (cancelled : Bool) : List String → List Frame
  | [] => if cancelled then [Frame.doneCancelled] else []
  | e :: rest =>
    if cancelled then [Frame.doneCancelled]
    else Frame.msg e :: (if e == "done" then [] else streamFrames cancelled rest)

/-- The source repository tree walked by
`GitHubService.copy_into_existing_repo` (github_service.py:227-291): a
directory listing is the list of entries returned by `get_contents`. -/
inductive STree
  | file (path : String)
  | dir (path : String) (children : List STree)

/-- Environment of one `copy_into_existing_repo` run. -/
structure CopyEnv where
  /-- `source.get_contents("", ref=default_branch)` (github_service.py:242). -/
  root : List STree
  /-- whether `target.get_contents(path)` succeeds (github_service.py:270):
  success means the file already exists and is skipped. -/
  lookupOk : String → Bool
  /-- whether fetching/decoding `item.decoded_content` raises
  (github_service.py:274); caught by the per-file handler. -/
  fetchRaises : String → Bool
  /-- whether `target.create_file(...)` raises (github_service.py:275);
  caught by the per-file handler of line 284. -/
  createRaises : String → Bool
  /-- whether `source.get_contents(dirPath, ...)` raises while recursing into
  a directory (github_service.py:265); NOT caught inside `copy_contents`, so
  it aborts the walk. -/
  dirRaises : String → Bool
  /-- `should_cancel()` returns true from this check index onward
  (`none` = never): the broker flag only ever moves to cancelled. -/
  cancelFrom : Option Nat
  /-- whether the setup of lines 237-242 (target lookup, source lookup,
  default branch, root listing) succeeded. -/
  setupOk : Bool

/-- Mutable state threaded through `copy_contents` (github_service.py:260-287). -/
structure CopySt where
  /-- number of `should_cancel()` checks performed so far. -/
  ticks : Nat
  /-- paths for which a `target.create_file` call was issued, in order. -/
  writes : List String
  /-- the `copied` counter (incremented only on successful writes). -/
  copied : Nat
  /-- an exception escaping `copy_contents` (a directory listing raise). -/
  err : Option String
deriving DecidableEq

/-- Whether the `should_cancel()` check number `t` observes cancellation. -/
def cancelHit (env : CopyEnv) (t : Nat) : Bool :=
  match env.cancelFrom with
  | none => false
  | some k => k ≤ t

/-- The per-file body of `copy_contents` (github_service.py:266-285): skip
when the target lookup succeeds; otherwise fetch the content and issue the
`create_file` call, the per-file handler swallowing any failure. -/
def copyFileStep (env : CopyEnv) (p : String) (st : CopySt) : CopySt :=
  if env.lookupOk p then st
  else if env.fetchRaises p then st
  else if env.createRaises p then { st with writes := st.writes ++ [p] }
  else { st with writes := st.writes ++ [p], copied := st.copied + 1 }

/-- The loop of `copy_contents` (github_service.py:260-287) over a directory
listing: each iteration checks `should_cancel()` and returns from the current
listing if set; a file is processed by `copyFileStep`; a directory is
recursed into, and a raise of the directory listing propagates out of the
whole walk. -/
def copyWalk (env : CopyEnv) : List STree → CopySt → CopySt
  | [], st => st
  | t :: ts, st =>
    if cancelHit env st.ticks then { st with ticks := st.ticks + 1 }
    else
      match t with
      | STree.file p =>
        copyWalk env ts (copyFileStep env p { st with ticks := st.ticks + 1 })
      | STree.dir p children =>
        if env.dirRaises p then
          { st with ticks := st.ticks + 1, err := some ("listing failed: " ++ p) }
        else
          let st2 := copyWalk env children { st with ticks := st.ticks + 1 }
          if st2.err.isSome then st2 else copyWalk env ts st2

/-- `GitHubService.copy_into_existing_repo` (github_service.py:227-291):
any raise of the setup of lines 237-242 or of a directory listing during the
walk reaches the outer handler of line 289 and yields `success: False`;
every other run — including one stopped by cooperative cancellation and one
whose individual file writes failed — returns `success: True` (line 288).
The best-effort pre-count of lines 246-257 only feeds progress payloads. -/
def copy_into_existing_repo (env : CopyEnv) : RepResult :=
  if !env.setupOk then RepResult.mk false (some "setup failed")
  else
    let st := copyWalk env env.root ⟨0, [], 0, none⟩
    match st.err with
    | some e => RepResult.mk false (some e)
    | none => RepResult.mk true none

/-- The truncation marker appended at agent_service.py:440. -/
def truncationMarker : List Char :=
  "...\n\n[Content truncated due to Devin API length limits]".toList

/-- Prompt-length validation before the Devin dispatch
(agent_service.py:436-441): a prompt longer than 29000 characters is cut to
its first 28000 characters plus the visible truncation marker.  Python
strings are sequences of code points, modelled as lists of characters. -/
def validate_prompt (p : List Char) : List Char :=
  if 29000 < p.length then p.take 28000 ++ truncationMarker else p


/-- Is an act the cleanup DELETE? -/
def isDeleteAct : Act → Bool
  | Act.deleteReq _ _ => true
  | _ => false

/-- Is an act the metadata write? -/
def isWriteAgentsAct : Act → Bool
  | Act.writeAgents _ _ => true
  | _ => false

/-- Acts that mutate external state (everything except the read-only
identity lookup, existence check and emptiness probe). -/
def isMutatingAct : Act → Bool
  | Act.getUser => false
  | Act.getRepoReq => false
  | Act.probeReq => false
  | _ => true

/-- Is an event a terminal `done` event? -/
def isDoneEvent : PEvent → Bool
  | PEvent.doneEv _ => true
  | _ => false

/-- Is an outcome the manual-fork fallback? -/
def isManualForkOutcome : Outcome → Bool
  | Outcome.manualFork _ _ _ _ => true
  | _ => false

/-- Is an outcome the success result? -/
def isOkOutcome : Outcome → Bool
  | Outcome.ok _ => true
  | _ => false

/-- A job input matching the spec scenario: source `octo/template`, target
owner `alice`, desired repository `template-acme`. -/
def exInp : JobInput :=
  { srcOwner := "octo", srcRepo := "template", customOwner := "alice",
    customRepo := "template-acme", derivedRepo := "template-acme",
    preferImport := false, ghuNoPat := false, progressJob := true,
    cancelled := false }

/-- The same job with the fork attempt skipped (`prefer_import`). -/
def inpPI : JobInput := { exInp with preferImport := true }

/-- The same job, already cancelled before it starts, with the fork skipped. -/
def inpC7 : JobInput := { exInp with preferImport := true, cancelled := true }

/-- Probe environment reporting a populated repository. -/
def probeNonEmpty : ProbeEnv :=
  ⟨⟨⟨200, "files"⟩, ⟨200, "files"⟩⟩, some false, ⟨200, ""⟩, some false⟩

/-- Probe environment reporting an empty repository (404 contents listing). -/
def probeEmpty : ProbeEnv :=
  ⟨⟨⟨404, "Not Found"⟩, ⟨404, "Not Found"⟩⟩, none, ⟨200, ""⟩, some true⟩

/-- A benign baseline environment: fork fails with 404, the target does not
exist, creation succeeds, the tarball import succeeds, the repository is
populated afterwards and the Devin dispatch returns 200. -/
def exEnv : Env :=
  { userStatus := 200, userLogin := "alice",
    fork := ⟨⟨404, "Not Found"⟩, ⟨404, "Not Found"⟩⟩,
    rename := ⟨200, ""⟩,
    getRepo := ⟨⟨404, "Not Found"⟩, ⟨404, "Not Found"⟩⟩,
    createRepo := ⟨⟨201, "created"⟩, ⟨201, "created"⟩⟩,
    fastImport := ⟨true, none⟩,
    copyRes := ⟨true, none⟩,
    probe := probeNonEmpty,
    delete := ⟨⟨204, ""⟩, ⟨204, ""⟩⟩,
    agentsOk := true,
    devin := ⟨200, ""⟩ }

/-- Baseline with the fork succeeding (201). -/
def envC1 : Env := { exEnv with fork := ⟨⟨201, "Created"⟩, ⟨201, "Created"⟩⟩ }

/-- Baseline with a generic (non-rate-limit) tarball-import failure. -/
def envC2 : Env := { exEnv with fastImport := ⟨false, some "tarball fetch failed"⟩ }

/-- Baseline where the target repository already exists and the
tarball import fails with a generic error. -/
def envC2w : Env :=
  { exEnv with getRepo := ⟨⟨200, "exists"⟩, ⟨200, "exists"⟩⟩,
               fastImport := ⟨false, some "tarball fetch failed"⟩ }

/-- Baseline with an HTTP 429 tarball-import failure whose text carries no
`403`, `rate limit` or `forbidden` marker. -/
def env429 : Env :=
  { exEnv with fastImport :=
      ⟨false, some "429 Client Error: Too Many Requests for url"⟩ }

/-- Baseline where the target exists and the tarball import fails with a
rate-limit message. -/
def envRL : Env :=
  { exEnv with getRepo := ⟨⟨200, "exists"⟩, ⟨200, "exists"⟩⟩,
               fastImport := ⟨false, some "API rate limit exceeded"⟩ }

/-- Baseline with a rate-limited repository-creation failure. -/
def envC4 : Env :=
  { exEnv with createRepo := ⟨⟨403, "API rate limit exceeded"⟩, ⟨403, ""⟩⟩ }

/-- Baseline where replication reports success but the probe finds the
repository empty. -/
def envC5 : Env := { exEnv with probe := probeEmpty }

/-- Baseline where the existence probe returns 403. -/
def envC6 : Env :=
  { exEnv with getRepo := ⟨⟨403, "Forbidden"⟩, ⟨403, "Forbidden"⟩⟩ }

/-- A copy run in which the target already holds `README.md`, the write of
`src/app.py` fails, and cancellation arrives at the fifth checkpoint. -/
def copyEnvEx : CopyEnv :=
  { root := [STree.file "README.md",
             STree.dir "src" [STree.file "src/app.py", STree.file "src/util.py"],
             STree.file "extra.txt"]
    lookupOk := fun p => p == "README.md"
    fetchRaises := fun _ => false
    createRaises := fun p => p == "src/app.py"
    dirRaises := fun _ => false
    cancelFrom := some 4
    setupOk := true }

/-- Pushing `List.all` through an `if` on lists. -/
theorem all_ite {α : Type} (P : Prop) [Decidable P] (l1 l2 : List α)
    (f : α → Bool) :
    ((if P then l1 else l2).all f) = if P then l1.all f else l2.all f := by
  split <;> rfl

/-- `List.all` over a retried call site only depends on the act. -/
theorem all_call2Acts (a : Act) (c : Call2) (f : Act → Bool) :
    ((call2Acts a c).all f) = f a := by
  unfold call2Acts
  split <;> simp

/-- `List.all` over a conditional publication. -/
theorem all_pubIf (b : Bool) (e : PEvent) (evs : List PEvent)
    (f : PEvent → Bool) :
    ((pubIf b e evs).all f) = (evs.all f && (!b || f e)) := by
  unfold pubIf
  cases b <;> simp

/-- Membership in the acts of a retried call site. -/
theorem mem_call2Acts (x a : Act) (c : Call2) : x ∈ call2Acts a c ↔ x = a := by
  unfold call2Acts
  split <;> simp

/-- On the fork-success path the dedented replication block runs with
`gh_service` unbound and raises immediately (agent_service.py:229). -/
theorem replicationBlock_unbound (inp : JobInput) (env : Env) (c : Bool)
    (acts : List Act) (evs : List PEvent) :
    replicationBlock inp env false c acts evs =
      ⟨Outcome.pyErr "UnboundLocalError: gh_service", acts, evs⟩ := rfl

/-- The per-file step only ever appends a path whose target lookup failed. -/
theorem copyFileStep_writes_skip (env : CopyEnv) (p : String) (st : CopySt)
    (h : (st.writes.all fun q => !env.lookupOk q) = true) :
    ((copyFileStep env p st).writes.all fun q => !env.lookupOk q) = true := by
  unfold copyFileStep
  split
  · exact h
  · next hlook =>
    split
    · exact h
    · split <;> simp_all [List.all_append, Bool.not_eq_true]

/-- The per-file step never sets the propagated-exception field. -/
theorem copyFileStep_err (env : CopyEnv) (p : String) (st : CopySt) :
    (copyFileStep env p st).err = st.err := by
  unfold copyFileStep
  split
  · rfl
  · split
    · rfl
    · split <;> rfl

/-- Writes issued during the walk never target a path whose lookup on the
target succeeded: the skip-if-exists `continue` of github_service.py:269-273
runs before any `create_file` call. -/
theorem copyWalk_writes_skip (env : CopyEnv) (l : List STree) (st : CopySt) :
    (st.writes.all fun q => !env.lookupOk q) = true →
    (((copyWalk env l st).writes).all fun q => !env.lookupOk q) = true := by
  induction l, st using copyWalk.induct env with
  | case1 st =>
    intro h
    simpa [copyWalk] using h
  | case2 t ts st hhit =>
    intro h
    cases t <;> simp only [copyWalk] <;> split
    · simpa using h
    · next hc => exact absurd hhit hc
    · simpa using h
    · next hc => exact absurd hhit hc
  | case3 ts st hhit p ih =>
    intro h
    simp only [copyWalk]
    split
    · next hc => exact absurd hc hhit
    · exact ih (copyFileStep_writes_skip env p _ (by simpa using h))
  | case4 ts st hhit p children hdir =>
    intro h
    simp only [copyWalk]
    split
    · next hc => exact absurd hc hhit
    · simpa using h
  | case5 ts st hhit p children hdir st2 hsome ih =>
    intro h
    simp only [copyWalk]
    split
    · next hc => exact absurd hc hhit
    · exact ih (by simpa using h)
  | case6 ts st hhit p children hdir st2 hnone ih1 ih2 =>
    intro h
    simp only [copyWalk]
    split
    · next hc => exact absurd hc hhit
    · exact ih2 (ih1 (by simpa using h))

/-- When no directory listing raises during the walk, `copy_contents`
propagates no exception. -/
theorem copyWalk_err_stable (env : CopyEnv)
    (hd : ∀ p, env.dirRaises p = false) (l : List STree) (st : CopySt) :
    (copyWalk env l st).err = st.err := by
  induction l, st using copyWalk.induct env with
  | case1 st => simp [copyWalk]
  | case2 t ts st hhit =>
    cases t <;> simp only [copyWalk] <;> split
    · rfl
    · next hc => exact absurd hhit hc
    · rfl
    · next hc => exact absurd hhit hc
  | case3 ts st hhit p ih =>
    simp only [copyWalk]
    split
    · next hc => exact absurd hc hhit
    · exact ih.trans ((copyFileStep_err env p _).trans rfl)
  | case4 ts st hhit p children hdir =>
    exact absurd hdir (by simp [hd p])
  | case5 ts st hhit p children hdir st2 hsome ih =>
    simp only [copyWalk]
    split
    · next hc => exact absurd hc hhit
    · exact ih.trans rfl
  | case6 ts st hhit p children hdir st2 hnone ih1 ih2 =>
    simp only [copyWalk]
    split
    · next hc => exact absurd hc hhit
    · exact ih2.trans (ih1.trans rfl)

/-- C8: the per-file content-copy strategy never overwrites a file that
already exists at the same path in the target repository: in every run of
the walk of `copy_into_existing_repo`, every path for which a `create_file`
write was issued is one whose target lookup failed, so all pre-existing
target files are left unchanged and a retry is idempotent-safe. -/
theorem c8_copy_never_overwrites (env : CopyEnv) :
    (((copyWalk env env.root ⟨0, [], 0, none⟩).writes).all
      fun q => !env.lookupOk q) = true :=
  copyWalk_writes_skip env env.root _ rfl

/-- C10: `copy_into_existing_repo` reports success whenever the setup lookups
succeed and no directory listing raises — in particular even when the walk is
stopped midway by cooperative cancellation and when individual file writes
fail (those are swallowed per file); it reports failure when the setup
(target lookup, source lookup, root listing) raises. -/
theorem c10_copy_success_classification (env : CopyEnv) :
    (env.setupOk = true → (∀ p, env.dirRaises p = false) →
      (copy_into_existing_repo env).success = true) ∧
    (env.setupOk = false → (copy_into_existing_repo env).success = false) := by
  constructor
  · intro hs hd
    unfold copy_into_existing_repo
    have he := copyWalk_err_stable env hd env.root ⟨0, [], 0, none⟩
    simp [hs, he]
  · intro hs
    simp [copy_into_existing_repo, hs]

/-- Witness for C10: a run interrupted by cancellation, with a failing
per-file write, still returns success. -/
theorem c10_witness :
    copyEnvEx.setupOk = true ∧
    copyEnvEx.cancelFrom = some 4 ∧
    copyEnvEx.createRaises "src/app.py" = true ∧
    (copy_into_existing_repo copyEnvEx).success = true :=
  ⟨rfl, rfl, by decide,
   (c10_copy_success_classification copyEnvEx).1 rfl (fun _ => rfl)⟩

/-- C9: the prompt sent to the agent session API never exceeds the hard
29000-character bound: a longer prompt is cut to its first 28000 characters
plus the visible truncation marker, and a prompt within the bound is sent
unmodified. -/
theorem c9_prompt_truncation (p : List Char) :
    (validate_prompt p).length ≤ 29000 ∧
    (p.length ≤ 29000 → validate_prompt p = p) ∧
    (29000 < p.length →
      validate_prompt p = p.take 28000 ++ truncationMarker) := by
  have hm : truncationMarker.length = 55 := by decide
  unfold validate_prompt
  by_cases h : 29000 < p.length
  · rw [if_pos h]
    refine ⟨?_, fun hle => absurd h (by omega), fun _ => rfl⟩
    rw [List.length_append, List.length_take, hm]
    have hmin : min 28000 p.length ≤ 28000 := Nat.min_le_left _ _
    omega
  · rw [if_neg h]
    exact ⟨by omega, fun _ => rfl, fun hlt => absurd hlt h⟩

/-- Witness for C9 at a concrete short prompt. -/
theorem c9_witness :
    ([] : List Char).length ≤ 29000 ∧ validate_prompt [] = [] :=
  ⟨by decide, (c9_prompt_truncation []).2.1 (by decide)⟩

/-- C1: the claim says a successful fork (201/202) skips replication and the
job proceeds to the metadata write, dispatch and success.  In the code, the
replication block is dedented outside `if not fork_ok:`; on the fork-success
path it runs with `gh_service` unbound, so the job dies with
UnboundLocalError right after publishing `fork-ok`: the metadata write never
happens and no `done` event is emitted. -/
theorem c1_fork_success_crashes (inp : JobInput) (env : Env)
    (h1 : env.userStatus = 200) (h2 : inp.preferImport = false)
    (h3 : (effResp env.fork).status = 201) :
    (assign_to_swe_agent inp env).outcome =
      Outcome.pyErr "UnboundLocalError: gh_service" ∧
    ((assign_to_swe_agent inp env).acts.all fun a => !isWriteAgentsAct a) = true ∧
    ((assign_to_swe_agent inp env).evs.all fun e => !isDoneEvent e) = true := by
  unfold assign_to_swe_agent
  simp [h1, h2, h3, replicationBlock_unbound, all_ite, all_call2Acts, all_pubIf,
    isWriteAgentsAct, isDoneEvent]

/-- Witness for C1: the spec scenario (source `octo/template`, owner `alice`,
repo `template-acme`) with the fork returning 201. -/
theorem c1_witness :
    envC1.userStatus = 200 ∧ exInp.preferImport = false ∧
    (effResp envC1.fork).status = 201 ∧
    (assign_to_swe_agent exInp envC1).outcome =
      Outcome.pyErr "UnboundLocalError: gh_service" :=
  ⟨rfl, rfl, by decide,
   (c1_fork_success_crashes exInp envC1 rfl rfl (by decide)).1⟩

/-- C2 counterexample: a job whose tarball import fails with a generic
non-rate-limit error.  The claim requires the legacy importer to be tried
and, on its generic failure, the content copy to be attempted before the job
fails; in the code neither the legacy-import request nor the content copy is
ever issued — the job aborts with a RuntimeError at the legacy-import call
because the httpx client's `async with` block has already exited. -/
theorem c2_counterexample :
    envC2.fastImport.success = false ∧
    rateLimitText (pyLower ((envC2.fastImport.error).getD "")) = false ∧
    (assign_to_swe_agent exInp envC2).outcome =
      Outcome.pyErr "RuntimeError: client closed" ∧
    Act.copyReq ∉ (assign_to_swe_agent exInp envC2).acts ∧
    Act.importPutReq ∉ (assign_to_swe_agent exInp envC2).acts := by
  decide

/-- C2 (amended): during replication the tarball import is attempted first
and no other strategy is ever exercised: a tarball failure that is not
classified as rate-limit reaches the legacy-importer call of
agent_service.py:261, which uses the already-closed httpx client and raises,
so the job aborts; the content-copy strategy and the legacy importer are
never run in this flow. -/
theorem c2_amended (inp : JobInput) (env : Env)
    (h1 : env.userStatus = 200) (h2 : inp.preferImport = true)
    (h3 : (effResp env.getRepo).status = 200) (hc : inp.cancelled = false) :
    Act.fastImportReq ∈ (assign_to_swe_agent inp env).acts ∧
    ((assign_to_swe_agent inp env).acts.all fun a =>
        a != Act.copyReq && a != Act.importPutReq) = true ∧
    (env.fastImport.success = false →
      rateLimitText (pyLower ((env.fastImport.error).getD "")) = false →
      (assign_to_swe_agent inp env).outcome =
        Outcome.pyErr "RuntimeError: client closed") := by
  unfold assign_to_swe_agent createPhase replicationBlock postReplication
  simp [h1, h2, h3, hc, all_ite, all_call2Acts, all_pubIf, mem_call2Acts]
  split_ifs <;> simp_all [all_ite, all_call2Acts, all_pubIf, mem_call2Acts]

/-- Witness for C2 (amended) on the concrete generic-failure environment. -/
theorem c2_witness :
    Act.fastImportReq ∈ (assign_to_swe_agent inpPI envC2w).acts ∧
    (assign_to_swe_agent inpPI envC2w).outcome =
      Outcome.pyErr "RuntimeError: client closed" :=
  ⟨(c2_amended inpPI envC2w rfl rfl (by decide) rfl).1,
   (c2_amended inpPI envC2w rfl rfl (by decide) rfl).2.2 rfl (by decide)⟩

/-- C3 counterexample: an HTTP 429 tarball failure ("429 Client Error: Too
Many Requests") carries none of the markers the code tests for (`403`,
`rate limit`, `forbidden`), so — contrary to the claim that every 403/429
failure short-circuits to the manual fallback — the cascade is not
short-circuited to the manual-fork outcome and the job aborts instead. -/
theorem c3_counterexample :
    (assign_to_swe_agent exInp env429).outcome =
      Outcome.pyErr "RuntimeError: client closed" ∧
    isManualForkOutcome (assign_to_swe_agent exInp env429).outcome = false := by
  decide

/-- C3 (amended): a tarball-import failure whose lowercased error text
contains `403`, `rate limit` or `forbidden` short-circuits the cascade: no
further strategy (and no metadata write, cleanup or dispatch) is attempted,
the job returns the manual-fallback outcome carrying the fork URL
`https://github.com/<source_owner>/<source_repo>/fork` plus the suggested
target owner and repo name, and a `done` event with status partial_success
is published. -/
theorem c3_amended (inp : JobInput) (env : Env)
    (h1 : env.userStatus = 200) (h2 : inp.preferImport = true)
    (h3 : (effResp env.getRepo).status = 200) (hc : inp.cancelled = false)
    (h4 : env.fastImport.success = false)
    (h5 : rateLimitText (pyLower ((env.fastImport.error).getD "")) = true) :
    (assign_to_swe_agent inp env).outcome =
      Outcome.manualFork (manualForkUrl inp.srcOwner inp.srcRepo)
        (targetOwnerOf inp env.userLogin) (desiredRepoOf inp)
        "GitHub API rate limit or access restriction encountered while importing. Please fork the template manually, then click Continue to resume." ∧
    ((assign_to_swe_agent inp env).acts.all fun a =>
        a != Act.copyReq && a != Act.importPutReq && !isDeleteAct a &&
        !isWriteAgentsAct a && a != Act.devinReq) = true ∧
    (inp.progressJob = true →
      PEvent.doneEv "partial_success" ∈ (assign_to_swe_agent inp env).evs) := by
  unfold assign_to_swe_agent createPhase replicationBlock
  simp [h1, h2, h3, hc, h4, h5, all_ite, all_call2Acts, all_pubIf, mem_call2Acts,
    isDeleteAct, isWriteAgentsAct, pubIf]
  intro hp
  simp [hp]

/-- Witness for C3 (amended) on a concrete rate-limited import. -/
theorem c3_witness :
    (assign_to_swe_agent inpPI envRL).outcome =
      Outcome.manualFork (manualForkUrl inpPI.srcOwner inpPI.srcRepo)
        (targetOwnerOf inpPI envRL.userLogin) (desiredRepoOf inpPI)
        "GitHub API rate limit or access restriction encountered while importing. Please fork the template manually, then click Continue to resume." :=
  (c3_amended inpPI envRL rfl rfl (by decide) rfl rfl (by decide)).1

/-- C4 counterexample: a repository-creation failure with HTTP 403 and a
rate-limit message.  The claim requires the PARTIAL_MANUAL_FORK_REQUIRED
manual-fallback outcome; the code always raises a plain HTTP error. -/
theorem c4_counterexample :
    rateLimitText (pyLower (effResp envC4.createRepo).text) = true ∧
    (effResp envC4.createRepo).status = 403 ∧
    (assign_to_swe_agent exInp envC4).outcome =
      Outcome.httpErr 403 "Failed to create repository: API rate limit exceeded" ∧
    isManualForkOutcome (assign_to_swe_agent exInp envC4).outcome = false := by
  decide

/-- C4 (amended): every creation failure (status other than 201) is fatal:
the job raises an HTTP error carrying the creation status and body — also
when the failure is a rate-limit/forbidden signal.  The only special-casing
of a 401/403 creation failure is an advisory sentence appended to the detail
when the token is a GitHub App user token without a PAT; no manual-fallback
outcome is produced at this step. -/
theorem c4_amended (inp : JobInput) (env : Env)
    (h1 : env.userStatus = 200) (h2 : inp.preferImport = true)
    (h3 : (effResp env.getRepo).status ≠ 200)
    (h4 : (effResp env.createRepo).status ≠ 201) :
    (assign_to_swe_agent inp env).outcome =
      Outcome.httpErr (effResp env.createRepo).status
        ("Failed to create repository: " ++ (effResp env.createRepo).text ++
          (if inp.ghuNoPat &&
              ((effResp env.createRepo).status == 401 ||
               (effResp env.createRepo).status == 403) then ghuPatAdvice
           else "")) := by
  unfold assign_to_swe_agent createPhase
  simp [h1, h2, h3, h4]

/-- Witness for C4 (amended) at the concrete 403 creation failure. -/
theorem c4_witness :
    (assign_to_swe_agent inpPI envC4).outcome =
      Outcome.httpErr (effResp envC4.createRepo).status
        ("Failed to create repository: " ++ (effResp envC4.createRepo).text ++
          (if inpPI.ghuNoPat &&
              ((effResp envC4.createRepo).status == 401 ||
               (effResp envC4.createRepo).status == 403) then ghuPatAdvice
           else "")) :=
  c4_amended inpPI envC4 rfl rfl (by decide) (by decide)

/-- C5: when a replication strategy reports success but the emptiness probe
finds the target empty, the job always ends in the manual-fallback outcome
and never in success; the cleanup DELETE is issued exactly once when this
run created the repository, and never when the repository pre-existed or
when the fork succeeded (on that path the job dies before the probe). -/
theorem c5_empty_cleanup (inp : JobInput) (env : Env)
    (h1 : env.userStatus = 200) (hc : inp.cancelled = false)
    (h4 : env.fastImport.success = true)
    (h5 : repo_is_empty env.probe = true)
    (h6 : badCreds env.delete.first = false) :
    (inp.preferImport = true → (effResp env.getRepo).status ≠ 200 →
      (effResp env.createRepo).status = 201 →
      ((assign_to_swe_agent inp env).acts.countP (fun a => isDeleteAct a)) = 1 ∧
      isManualForkOutcome (assign_to_swe_agent inp env).outcome = true ∧
      isOkOutcome (assign_to_swe_agent inp env).outcome = false) ∧
    (inp.preferImport = true → (effResp env.getRepo).status = 200 →
      ((assign_to_swe_agent inp env).acts.countP (fun a => isDeleteAct a)) = 0 ∧
      isManualForkOutcome (assign_to_swe_agent inp env).outcome = true ∧
      isOkOutcome (assign_to_swe_agent inp env).outcome = false) ∧
    (inp.preferImport = false → (effResp env.fork).status = 201 →
      ((assign_to_swe_agent inp env).acts.countP (fun a => isDeleteAct a)) = 0) := by
  refine ⟨?_, ?_, ?_⟩
  · intro h2 hg hcr
    unfold assign_to_swe_agent createPhase replicationBlock postReplication
    simp [h1, h2, hc, h4, h5, h6, hg, hcr, call2Acts, pubIf,
      isDeleteAct, isManualForkOutcome, isOkOutcome, List.countP_append,
      List.countP_cons]
    split_ifs <;> simp
  · intro h2 hg
    unfold assign_to_swe_agent createPhase replicationBlock postReplication
    simp [h1, h2, hc, h4, h5, h6, hg, call2Acts, pubIf,
      isDeleteAct, isManualForkOutcome, isOkOutcome, List.countP_append,
      List.countP_cons]
    split_ifs <;> simp
  · intro h2 hf
    unfold assign_to_swe_agent
    simp [h1, h2, hf, replicationBlock_unbound, call2Acts, pubIf,
      isDeleteAct, List.countP_append, List.countP_cons]
    split_ifs <;> simp

/-- Witness for C5: created repository, import accepted, probe finds it
empty — exactly one DELETE, manual fallback, no success. -/
theorem c5_witness :
    ((assign_to_swe_agent inpPI envC5).acts.countP (fun a => isDeleteAct a)) = 1 ∧
    isManualForkOutcome (assign_to_swe_agent inpPI envC5).outcome = true ∧
    isOkOutcome (assign_to_swe_agent inpPI envC5).outcome = false :=
  (c5_empty_cleanup inpPI envC5 rfl rfl rfl (by decide) (by decide)).1
    rfl (by decide) (by decide)

/-- C6 counterexample: the existence probe answers 403, which the claim says
must propagate as an error; the code instead treats any non-200 as "does not
exist", proceeds to create the repository, and the job even succeeds. -/
theorem c6_counterexample :
    (effResp envC6.getRepo).status = 403 ∧
    Act.createRepoReq ∈ (assign_to_swe_agent exInp envC6).acts ∧
    (assign_to_swe_agent exInp envC6).outcome =
      Outcome.ok "https://github.com/alice/template-acme" := by
  decide

/-- C6 (amended): the existence probe of agent_service.py:150-171 treats the
target as existing exactly when the (possibly Bearer-retried) read returns
HTTP 200; every other status — including 401/403/404 alike — leads to a
creation attempt instead of propagating an error. -/
theorem c6_amended (inp : JobInput) (env : Env)
    (h1 : env.userStatus = 200) (h2 : inp.preferImport = true) :
    ((effResp env.getRepo).status = 200 →
      ((assign_to_swe_agent inp env).acts.all fun a =>
        a != Act.createRepoReq) = true) ∧
    ((effResp env.getRepo).status ≠ 200 →
      Act.createRepoReq ∈ (assign_to_swe_agent inp env).acts) := by
  unfold assign_to_swe_agent createPhase replicationBlock postReplication
  constructor
  · intro hg
    simp [h1, h2, hg, all_ite, all_call2Acts, all_pubIf]
    split_ifs <;> simp_all [all_ite, all_call2Acts, all_pubIf, mem_call2Acts]
  · intro hg
    simp [h1, h2, hg, mem_call2Acts, all_ite, all_call2Acts, all_pubIf]
    split_ifs <;> simp_all [mem_call2Acts]

/-- Witness for C6 (amended) at the concrete 403 probe response. -/
theorem c6_witness :
    Act.createRepoReq ∈ (assign_to_swe_agent inpPI envC6).acts :=
  (c6_amended inpPI envC6 rfl rfl).2 (by decide)

/-- C7 counterexample: a job cancelled before it starts (the broker flag is
already set) still issues the mutating repository-creation call — the
orchestrator consults cancellation only inside the replication strategies —
and its run publishes no `done` event at all, cancelled or otherwise. -/
theorem c7_counterexample :
    inpC7.cancelled = true ∧
    Act.createRepoReq ∈ (assign_to_swe_agent inpC7 exEnv).acts ∧
    isMutatingAct Act.createRepoReq = true ∧
    ((assign_to_swe_agent inpC7 exEnv).evs.all fun e => !isDoneEvent e) = true := by
  decide

/-- C7 (amended): once `cancel(job_id)` has been called, the next read of the
progress stream emits the terminal `done` frame with status cancelled and the
stream closes with no further frames, and `is_cancelled` observes the
cancellation; but the orchestrator consults the flag only through the
replication strategies' `should_cancel` checkpoints, so mutating calls
outside them (here: the repository creation) are still issued after
cancellation, and a cancelled tarball import makes the job abort at the
legacy-import call instead of stopping at the step boundary. -/
theorem c7_amended :
    (∀ q, streamFrames true q = [Frame.doneCancelled]) ∧
    (∀ s j, is_cancelledJob (cancelJob s j) j = true) ∧
    (∀ inp env, inp.cancelled = true → inp.progressJob = true →
      env.userStatus = 200 → inp.preferImport = true →
      (effResp env.getRepo).status ≠ 200 →
      (effResp env.createRepo).status = 201 →
      Act.createRepoReq ∈ (assign_to_swe_agent inp env).acts ∧
      isMutatingAct Act.createRepoReq = true ∧
      (assign_to_swe_agent inp env).outcome =
        Outcome.pyErr "RuntimeError: client closed") := by
  refine ⟨fun q => by cases q <;> rfl, fun s j => ?_, ?_⟩
  · simp [is_cancelledJob, cancelJob]
  · intro inp env hcan hpj h1 h2 hg hcr
    have hrl : rateLimitText (pyLower "cancelled") = false := by decide
    unfold assign_to_swe_agent createPhase replicationBlock
    simp [h1, h2, hg, hcr, hcan, hpj, hrl, mem_call2Acts, isMutatingAct]

/-- Witness for C7 (amended): concrete stream, broker and job instances. -/
theorem c7_witness :
    streamFrames true ["fork-start"] = [Frame.doneCancelled] ∧
    is_cancelledJob (cancelJob [] "job-1") "job-1" = true ∧
    Act.createRepoReq ∈ (assign_to_swe_agent inpC7 exEnv).acts :=
  ⟨c7_amended.1 ["fork-start"],
   c7_amended.2.1 [] "job-1",
   (c7_amended.2.2 inpC7 exEnv rfl rfl rfl rfl (by decide) (by decide)).1⟩
